import Mathlib

/-!
Shallow embedding of the x402 insurance service (Solana edition) for
specification checking.

The embedding covers:
* `payment_verifier_solana.py` — the full payment verifier
  (`PaymentVerifierSolana.verify_payment` together with its in-memory nonce
  cache and periodic cleanup);
* `server.py` — the `/insure`, `/renew` and `/claim` routes and the
  asynchronous background worker `process_claim_async`.

External collaborators (the zkEngine proof oracle, the Solana blockchain
client, and the ed25519 signature primitive) are modelled as opaque
behaviours supplied as parameters, exactly at the interface boundary the
source code uses; the sequence of calls made to them is recorded as an
explicit event trace so that ordering properties can be stated.

Times are unix seconds as integers; USDC display amounts are rationals and
smallest-unit amounts are integers, matching the Decimal/int arithmetic of
the source.
-/

namespace X402

/-- Association-list dictionary with Python `dict` semantics: insertion
order is preserved, assigning to an existing key updates it in place. -/
abbrev Dict (α : Type) : Type := List (String × α)

/-- Lookup of a key (first, and only, binding). -/
def dget {α : Type} : Dict α → String → Option α
  | [], _ => none
  | (k', v) :: rest, k => if k' = k then some v else dget rest k

/-- `d[k] = v` with Python semantics: replace in place, else append. -/
def dset {α : Type} : Dict α → String → α → Dict α
  | [], k, v => [(k, v)]
  | (k', v') :: rest, k, v =>
      if k' = k then (k, v) :: rest else (k', v') :: dset rest k v

/-- `k in d`. -/
def dcontains {α : Type} (d : Dict α) (k : String) : Bool :=
  (dget d k).isSome

/-! ## Payment verifier (`payment_verifier_solana.py`) -/

/-- `PaymentDetailsSolana`: the result record of `verify_payment`. -/
structure PaymentDetailsSolana where
  payer : String
  amountUnits : Int
  asset : String
  payTo : String
  timestamp : Int
  nonce : String
  signature : String
  isValid : Bool
  deriving Repr, DecidableEq

/-- `PaymentVerifierSolana`: configuration plus the mutable in-memory
nonce cache (`nonce_cache`, keyed by `payer:nonce`, value = timestamp of
first acceptance) and the cleanup bookkeeping of `__init__`. -/
structure Verifier where
  backendPubkey : String
  usdcMint : String
  nonceCache : Dict Int
  cacheCleanupInterval : Int
  lastCleanup : Int
  deriving Repr, DecidableEq

/-- Split a character list at every occurrence of `c`; like Python
`str.split(sep)`, the result has one part more than separators. -/
def splitChars (c : Char) : List Char → List (List Char)
  | [] => [[]]
  | ch :: rest =>
    match splitChars c rest with
    | [] => [[]]
    | cur :: parts =>
        if ch = c then [] :: cur :: parts else (ch :: cur) :: parts

/-- Whitespace for Python `str.strip()` (the characters that occur in
x402 headers). -/
def isSpaceChar (c : Char) : Bool :=
  c = ' ' || c = '\t' || c = '\n' || c = '\r'

/-- Python `str.strip()`. -/
def trimChars (l : List Char) : List Char :=
  ((l.dropWhile isSpaceChar).reverse.dropWhile isSpaceChar).reverse

/-- Python `str.lower()`, character by character (addresses are ASCII). -/
def lowerStr (s : String) : String :=
  String.mk (s.data.map Char.toLower)

/-- One `key=value` item of the header. Python `item.split('=', 1)` keeps
everything after the first `=` in the value; an item without `=` is
skipped; both sides are stripped of surrounding whitespace. -/
def parseItem (item : List Char) : Option (String × String) :=
  match splitChars '=' item with
  | [] => none
  | [_] => none
  | key :: rest =>
      some (String.mk (trimChars key),
            String.mk (trimChars (List.intercalate ['='] rest)))

/-- `_parse_payment_header`: split on commas into `key=value` pairs. -/
def parsePaymentHeader (s : String) : Dict String :=
  (splitChars ',' s.data).foldl
    (fun acc item =>
      match parseItem item with
      | some (k, v) => dset acc k v
      | none => acc)
    []

/-- Decimal digits to a number; `none` on an empty or non-digit list. -/
def parseDigits (l : List Char) : Option Nat :=
  if l.isEmpty then none
  else
    l.foldl
      (fun acc c =>
        acc.bind (fun n =>
          if c.isDigit then some (10 * n + (c.toNat - 48)) else none))
      (some 0)

/-- Python `int(s)` on a decimal string: optional sign, at least one
digit, surrounding whitespace tolerated; anything else raises
`ValueError` (modelled as `none`). -/
def parseIntStr (s : String) : Option Int :=
  match trimChars s.data with
  | '-' :: rest => (parseDigits rest).map (fun n => -(n : Int))
  | '+' :: rest => (parseDigits rest).map (fun n => (n : Int))
  | l => (parseDigits l).map (fun n => (n : Int))

/-- Python `int(payment_data.get(k, 0))`: an absent key yields the integer
`0`; a present value is parsed as a decimal integer, and an unparseable
value raises `ValueError` (modelled as `none`, which `verify_payment`
catches into its all-empty invalid result). -/
def getIntField (pd : Dict String) (k : String) : Option Int :=
  match dget pd k with
  | none => some 0
  | some s => parseIntStr s

/-- Nonce-cache key `f"{payer}:{nonce}"`. -/
def nonceKey (payer nonce : String) : String :=
  payer ++ ":" ++ nonce

/-- `_cleanup_old_nonces`: drop every entry whose stored timestamp is
older than one hour, and remember the cleanup time. -/
def cleanupOldNonces (v : Verifier) (currentTime : Int) : Verifier :=
  { v with
    nonceCache := v.nonceCache.filter (fun kv => ¬ kv.2 < currentTime - 3600),
    lastCleanup := currentTime }

/-- `_is_nonce_used`: periodically garbage-collect the cache, then test
membership of `payer:nonce`.  Returns the answer together with the
(possibly cleaned) verifier state. -/
def isNonceUsed (v : Verifier) (payer nonce : String) (currentTime : Int) :
    Bool × Verifier :=
  let v1 := if currentTime - v.lastCleanup > v.cacheCleanupInterval
            then cleanupOldNonces v currentTime else v
  (dcontains v1.nonceCache (nonceKey payer nonce), v1)

/-- `_mark_nonce_used`. -/
def markNonceUsed (v : Verifier) (payer nonce : String) (timestamp : Int) :
    Verifier :=
  { v with nonceCache := dset v.nonceCache (nonceKey payer nonce) timestamp }

/-- `_verify_signature` is an external ed25519 primitive (nacl); it is
modelled as an opaque boolean oracle over the six signed fields and the
presented signature string. -/
abbrev SigOracle :=
  String → Int → String → String → Int → String → String → Bool

/-- The all-empty invalid result returned on parse failure or exception. -/
def emptyInvalid : PaymentDetailsSolana :=
  ⟨"", 0, "", "", 0, "", "", false⟩

/-- An invalid result echoing the extracted fields. -/
def invalidDetails (payer : String) (amount : Int) (asset payTo : String)
    (timestamp : Int) (nonce signature : String) : PaymentDetailsSolana :=
  ⟨payer, amount, asset, payTo, timestamp, nonce, signature, false⟩

/-- `payment_data.get('payer', payer_address or '')`. -/
def fieldPayer (pd : Dict String) (payerAddress : Option String) : String :=
  (dget pd "payer").getD (payerAddress.getD "")

/-- `payment_data.get('asset', self.usdc_mint)`: an absent asset silently
defaults to the configured mint. -/
def fieldAsset (v : Verifier) (pd : Dict String) : String :=
  (dget pd "asset").getD v.usdcMint

/-- `payment_data.get('payTo', self.backend_pubkey)`: an absent recipient
silently defaults to the backend key. -/
def fieldPayTo (v : Verifier) (pd : Dict String) : String :=
  (dget pd "payTo").getD v.backendPubkey

/-- `payment_data.get('nonce', '')`. -/
def fieldNonce (pd : Dict String) : String :=
  (dget pd "nonce").getD ""

/-- `payment_data.get('signature', '')`. -/
def fieldSignature (pd : Dict String) : String :=
  (dget pd "signature").getD ""

/-- The invalid result echoing the extracted fields of the parsed
header. -/
def mkInvalid (v : Verifier) (pd : Dict String) (payerAddress : Option String)
    (amount timestamp : Int) : PaymentDetailsSolana :=
  invalidDetails (fieldPayer pd payerAddress) amount (fieldAsset v pd)
    (fieldPayTo v pd) timestamp (fieldNonce pd) (fieldSignature pd)

/-- The body of `verify_payment` after header parsing, faithful to the
check order of the source: missing/empty/zero fields, exact amount,
recipient, asset, future timestamp (60 s skew), staleness, nonce replay
(with the garbage-collection side effect of `_is_nonce_used`), then the
signature; only on full success is the nonce marked used. -/
def verifyParsed (v : Verifier) (sig : SigOracle) (currentTime : Int)
    (pd : Dict String) (payerAddress : Option String)
    (requiredAmount : Int) (maxAgeSeconds : Int) :
    PaymentDetailsSolana × Verifier :=
  if pd.isEmpty then (emptyInvalid, v)
  else
    match getIntField pd "amount", getIntField pd "timestamp" with
    | some amount, some timestamp =>
      if fieldPayer pd payerAddress = "" ∨ amount = 0 ∨ fieldAsset v pd = "" ∨
         fieldPayTo v pd = "" ∨ timestamp = 0 ∨ fieldNonce pd = "" ∨
         fieldSignature pd = "" then
        (mkInvalid v pd payerAddress amount timestamp, v)
      else if amount ≠ requiredAmount then
        (mkInvalid v pd payerAddress amount timestamp, v)
      else if fieldPayTo v pd ≠ v.backendPubkey then
        (mkInvalid v pd payerAddress amount timestamp, v)
      else if fieldAsset v pd ≠ v.usdcMint then
        (mkInvalid v pd payerAddress amount timestamp, v)
      else if timestamp > currentTime + 60 then
        (mkInvalid v pd payerAddress amount timestamp, v)
      else if currentTime - timestamp > maxAgeSeconds then
        (mkInvalid v pd payerAddress amount timestamp, v)
      else if (isNonceUsed v (fieldPayer pd payerAddress) (fieldNonce pd) currentTime).1 then
        (mkInvalid v pd payerAddress amount timestamp,
         (isNonceUsed v (fieldPayer pd payerAddress) (fieldNonce pd) currentTime).2)
      else if sig (fieldPayer pd payerAddress) amount (fieldAsset v pd)
          (fieldPayTo v pd) timestamp (fieldNonce pd) (fieldSignature pd) then
        (⟨fieldPayer pd payerAddress, amount, fieldAsset v pd, fieldPayTo v pd,
          timestamp, fieldNonce pd, fieldSignature pd, true⟩,
         markNonceUsed (isNonceUsed v (fieldPayer pd payerAddress) (fieldNonce pd) currentTime).2
           (fieldPayer pd payerAddress) (fieldNonce pd) timestamp)
      else
        (mkInvalid v pd payerAddress amount timestamp,
         (isNonceUsed v (fieldPayer pd payerAddress) (fieldNonce pd) currentTime).2)
    | _, _ => (emptyInvalid, v)

/-- `PaymentVerifierSolana.verify_payment`: parse the header, then run the
checks of `verifyParsed`.  `currentTime` stands for `time.time()` and
`sig` for the external ed25519 primitive.  Returns the details record
together with the updated verifier state. -/
def verifyPayment (v : Verifier) (sig : SigOracle) (currentTime : Int)
    (paymentHeader : String) (payerAddress : Option String)
    (requiredAmount : Int) (maxAgeSeconds : Int) :
    PaymentDetailsSolana × Verifier :=
  verifyParsed v sig currentTime (parsePaymentHeader paymentHeader)
    payerAddress requiredAmount maxAgeSeconds

/-! ## Server data model (`server.py`) -/

/-- `to_micro`: USDC display amount to micro-USDC, `Decimal` with
`ROUND_DOWN`: q·10⁶ truncated toward zero, computed on the raw fraction
(`Int.tdiv` is exactly truncation toward zero; `toMicro_eq_floor` below
identifies this with `⌊q * 1000000⌋` on non-negative amounts). -/
def toMicro (q : ℚ) : Int :=
  (q.num * 1000000).tdiv (q.den : Int)

/-- Rational multiplication computed on the raw fractions, so that the
kernel can evaluate it on literals (`ratMul_eq_mul` below shows it is
ordinary multiplication). -/
def ratMul (a b : ℚ) : ℚ :=
  mkRat (a.num * b.num) (a.den * b.den)

/-- The captured failure evidence sent with a claim. -/
structure HttpResponse where
  status : Int
  body : String
  headers : Dict String
  deriving Repr, DecidableEq

/-- A policy record as written by `/insure` and mutated by `/renew` and
the claim paths.  `Option` fields are the ones the server reads with
`.get` (they may be absent on old records). -/
structure Policy where
  policy_id : String
  agent_address : String
  merchant_url : String
  merchant_url_hash : String
  coverage_amount : ℚ
  coverage_amount_units : Option Int
  premium : ℚ
  premium_units : Int
  status : String
  created_at : Int
  expires_at : Int
  renewal_count : Option Int := none
  total_renewal_fees : Option ℚ := none
  renewed_at : Option Int := none
  deriving Repr, DecidableEq

/-- A claim record.  A field with value `none` models a dict in which the
corresponding key is absent (bracket access on it raises `KeyError`).
`errorMsg` models the `error` key. -/
structure ClaimRecord where
  claim_id : String
  policy_id : String
  status : String
  http_response : Option HttpResponse := none
  http_status : Option Int := none
  http_body_hash : Option String := none
  http_headers : Option (Dict String) := none
  agent_address : Option String := none
  coverage_amount : Option ℚ := none
  coverage_amount_units : Option Int := none
  proof : Option String := none
  public_inputs : Option (List Int) := none
  proof_generation_time_ms : Option Int := none
  verification_result : Option Bool := none
  payout_amount : Option ℚ := none
  payout_amount_units : Option Int := none
  attestation_tx_hash : Option String := none
  refund_tx_hash : Option String := none
  recipient_address : Option String := none
  created_at : Option Int := none
  paid_at : Option Int := none
  failed_at : Option Int := none
  idempotency_key : Option String := none
  errorMsg : Option String := none
  deriving Repr, DecidableEq

/-- The persisted stores behind `policies.json` / `claims.json`. -/
structure ClaimState where
  policies : Dict Policy
  claims : Dict ClaimRecord
  deriving Repr, DecidableEq

/-- Observable actions of a claim-handling run: calls into the external
zkEngine / blockchain collaborators, and durable saves of the stores. -/
inductive Event where
  | genProofCall (httpStatus : Int)
  | verifyProofCall
  | storeProofCall (claimId proofHash : String) (httpStatus : Int) (payout : Int)
  | refundCall (toAddress : String) (amount : Int)
  | saveClaims (m : Dict ClaimRecord)
  | savePolicies (m : Dict Policy)
  deriving Repr, DecidableEq

/-- Outcomes of the external collaborators for one run: `none` models the
call raising an exception.  `genProof` yields
`(proof_hex, public_inputs, gen_time_ms)`. -/
structure ExtBehavior where
  genProof : Option (String × List Int × Int)
  verifyOk : Option Bool
  storeProof : Option String
  refund : Option String
  deriving Repr, DecidableEq

/-- HTTP responses of the `/claim` route.  `keyErrorCrash` models an
uncaught `KeyError` escaping the route (Flask turns it into a 500). -/
inductive ClaimResponse where
  | badRequest (msg : String)
  | notFound (msg : String)
  | idempotentReplay (claimId policyId pf : String) (pubInputs : List Int)
      (payout : ℚ) (refundTx status : String)
  | keyErrorCrash (key : String)
  | accepted (claimId policyId : String)
  | internalError (msg : String)
  | refundFailed (msg attestationTx : String)
  | paid (claimId policyId pf : String) (pubInputs : List Int)
      (payout : ℚ) (refundTx : String)
  deriving Repr, DecidableEq

/-- `policy.get("coverage_amount_units") or to_micro(policy.get("coverage_amount"))`:
Python `or` falls through both on a missing key and on a falsy (zero)
stored value. -/
def unitsOrMicro (pol : Policy) : Int :=
  match pol.coverage_amount_units with
  | some u => if u = 0 then toMicro pol.coverage_amount else u
  | none => toMicro pol.coverage_amount

/-- The claim record written by the async branch of `/claim` before the
background thread is started: status `processing`, evidence captured,
external identifiers still absent. -/
def mkAsyncClaimRecord (claimId policyId : String) (resp : HttpResponse)
    (pol : Policy) (bodyHash : String) (t : Int) (idemKey : Option String) :
    ClaimRecord :=
  { claim_id := claimId
    policy_id := policyId
    status := "processing"
    http_response := some resp
    http_status := some resp.status
    http_body_hash := some bodyHash
    http_headers := some resp.headers
    agent_address := some pol.agent_address
    coverage_amount := some pol.coverage_amount
    coverage_amount_units := some (unitsOrMicro pol)
    created_at := some t
    idempotency_key := idemKey }

/-- The claim record written by the synchronous branch after a successful
payout: status `paid` directly. -/
def mkPaidClaimRecord (claimId policyId proofHex : String)
    (pubInputs : List Int) (genMs : Int) (resp : HttpResponse)
    (bodyHash : String) (payout : ℚ) (payoutUnits : Int)
    (att rtx recipient : String) (t : Int) (idemKey : Option String) :
    ClaimRecord :=
  { claim_id := claimId
    policy_id := policyId
    status := "paid"
    proof := some proofHex
    public_inputs := some pubInputs
    proof_generation_time_ms := some genMs
    verification_result := some true
    http_status := some resp.status
    http_body_hash := some bodyHash
    http_headers := some resp.headers
    payout_amount := some payout
    payout_amount_units := some payoutUnits
    attestation_tx_hash := some att
    refund_tx_hash := some rtx
    recipient_address := some recipient
    created_at := some t
    paid_at := some t
    idempotency_key := idemKey }

/-- `proof_hex[:64] if len(proof_hex) > 64 else proof_hex`. -/
def proofHashOf (proofHex : String) : String :=
  if proofHex.length > 64 then proofHex.take 64 else proofHex

/-- The idempotency scan of `/claim`: if a (truthy) `Idempotency-Key` was
sent, return the first claim record stored under it, in insertion
order. -/
def idempotencyLookup (claims : Dict ClaimRecord) (idemKey : Option String) :
    Option ClaimRecord :=
  match idemKey with
  | some k =>
      if k = "" then none
      else (claims.find? (fun kv => kv.2.idempotency_key = some k)).map (·.2)
  | none => none

/-- The idempotent-replay response of `/claim`.  The source reads
`existing_claim["proof"]`, `["public_inputs"]`, `["payout_amount"]` and
`["refund_tx_hash"]` with bracket access, so a record missing one of
those keys (any record that is not a synchronous-path `paid` record)
raises `KeyError` out of the route. -/
def replayResponse (r : ClaimRecord) : ClaimResponse :=
  match r.proof with
  | none => .keyErrorCrash "proof"
  | some pf =>
    match r.public_inputs with
    | none => .keyErrorCrash "public_inputs"
    | some pins =>
      match r.payout_amount with
      | none => .keyErrorCrash "payout_amount"
      | some payout =>
        match r.refund_tx_hash with
        | none => .keyErrorCrash "refund_tx_hash"
        | some rtx =>
          .idempotentReplay r.claim_id r.policy_id pf pins payout rtx r.status

/-- The async handoff of `/claim`: persist the `processing` record, then
return 202 (the background thread is started separately, modelled as a
later `processClaimAsync` call). -/
def asyncAccept (st : ClaimState) (sha : String → String)
    (policyId : String) (pol : Policy) (resp : HttpResponse)
    (idemKey : Option String) (t : Int) (newClaimId : String) :
    ClaimResponse × ClaimState × List Event :=
  (.accepted newClaimId policyId,
   ⟨st.policies,
    dset st.claims newClaimId
      (mkAsyncClaimRecord newClaimId policyId resp pol (sha resp.body) t idemKey)⟩,
   [.saveClaims (dset st.claims newClaimId
      (mkAsyncClaimRecord newClaimId policyId resp pol (sha resp.body) t idemKey))])

/-- The inline (synchronous) processing of `/claim`: zkEngine proof
generation and verification, the failure-flag check, the on-chain
attestation, the refund, then persisting the `paid` record and flipping
the policy to `claimed`. -/
def syncProcess (st : ClaimState) (ext : ExtBehavior) (sha : String → String)
    (policyId : String) (pol : Policy) (resp : HttpResponse)
    (idemKey : Option String) (t : Int) (newClaimId : String) :
    ClaimResponse × ClaimState × List Event :=
  match ext.genProof with
  | none => (.internalError "Proof generation failed", st,
             [.genProofCall resp.status])
  | some (proofHex, pubInputs, genMs) =>
    match ext.verifyOk with
    | none => (.internalError "Proof verification failed", st,
               [.genProofCall resp.status, .verifyProofCall])
    | some ok =>
      if ¬ ok then
        (.internalError "Generated proof is invalid", st,
         [.genProofCall resp.status, .verifyProofCall])
      else
        match pubInputs with
        | i0 :: _ :: _ :: _ :: _ =>
          if i0 ≠ 1 then
            (.badRequest "No API failure detected in HTTP response", st,
             [.genProofCall resp.status, .verifyProofCall])
          else
            match ext.storeProof with
            | none =>
              (.internalError "Failed to store proof on-chain", st,
               [.genProofCall resp.status, .verifyProofCall,
                .storeProofCall newClaimId (proofHashOf proofHex) resp.status (unitsOrMicro pol)])
            | some att =>
              match ext.refund with
              | none =>
                (.refundFailed "Refund failed" att, st,
                 [.genProofCall resp.status, .verifyProofCall,
                  .storeProofCall newClaimId (proofHashOf proofHex) resp.status (unitsOrMicro pol),
                  .refundCall pol.agent_address (unitsOrMicro pol)])
              | some rtx =>
                (.paid newClaimId policyId proofHex pubInputs pol.coverage_amount rtx,
                 ⟨dset st.policies policyId { pol with status := "claimed" },
                  dset st.claims newClaimId
                    (mkPaidClaimRecord newClaimId policyId proofHex pubInputs genMs
                      resp (sha resp.body) pol.coverage_amount (unitsOrMicro pol)
                      att rtx pol.agent_address t idemKey)⟩,
                 [.genProofCall resp.status, .verifyProofCall,
                  .storeProofCall newClaimId (proofHashOf proofHex) resp.status (unitsOrMicro pol),
                  .refundCall pol.agent_address (unitsOrMicro pol),
                  .saveClaims (dset st.claims newClaimId
                    (mkPaidClaimRecord newClaimId policyId proofHex pubInputs genMs
                      resp (sha resp.body) pol.coverage_amount (unitsOrMicro pol)
                      att rtx pol.agent_address t idemKey)),
                  .savePolicies (dset st.policies policyId { pol with status := "claimed" })])
        | _ =>
          (.internalError "IndexError: public_inputs", st,
           [.genProofCall resp.status, .verifyProofCall])

/-- The `/claim` route (`claim` in `server.py`): idempotency-key replay,
policy validation, then either the async handoff (record saved as
`processing`, 202) or the inline path (prove, verify, attest on-chain,
refund, persist `paid`, flip the policy to `claimed`).  `t` is the current
time, `newClaimId` the generated uuid, `sha` the body hash, and `ext` the
outcomes of the external calls.  Returns the response, the new stores and
the event trace in order. -/
def claimSubmit (st : ClaimState) (ext : ExtBehavior) (sha : String → String)
    (policyId : String) (resp : HttpResponse) (idemKey : Option String)
    (asyncMode : Bool) (t : Int) (newClaimId : String) :
    ClaimResponse × ClaimState × List Event :=
  match idempotencyLookup st.claims idemKey with
  | some r => (replayResponse r, st, [])
  | none =>
    match dget st.policies policyId with
    | none => (.notFound "Policy not found", st, [])
    | some pol =>
      if pol.status ≠ "active" then (.badRequest "Policy is not active", st, [])
      else if pol.expires_at < t then (.badRequest "Policy expired", st, [])
      else if asyncMode then
        asyncAccept st sha policyId pol resp idemKey t newClaimId
      else
        syncProcess st ext sha policyId pol resp idemKey t newClaimId

/-- The outer `except` handler of `process_claim_async`: reload the
claims, stamp the claim `failed` with the error text and `failed_at`,
save. -/
def exceptFail (st : ClaimState) (claimId msg : String) (t : Int) :
    ClaimState × List Event :=
  match dget st.claims claimId with
  | none => (st, [])
  | some c =>
    (⟨st.policies,
      dset st.claims claimId { c with status := "failed", errorMsg := some msg, failed_at := some t }⟩,
     [.saveClaims (dset st.claims claimId
        { c with status := "failed", errorMsg := some msg, failed_at := some t })])

/-- An inline failure branch of `process_claim_async`: status and error
only (no `failed_at`), then save. -/
def inlineFail (st : ClaimState) (claimId msg : String) :
    ClaimState × List Event :=
  match dget st.claims claimId with
  | none => (st, [])
  | some c =>
    (⟨st.policies, dset st.claims claimId { c with status := "failed", errorMsg := some msg }⟩,
     [.saveClaims (dset st.claims claimId { c with status := "failed", errorMsg := some msg })])

/-- The final successful update of `process_claim_async`: proof fields,
payout fields, `paid` status, `paid_at`, and the oversized
`http_response` popped. -/
def asyncPaidRecord (c : ClaimRecord) (proofHex : String)
    (pubInputs : List Int) (genMs : Int) (cov : ℚ) (units : Int)
    (rtx addr : String) (t : Int) : ClaimRecord :=
  { c with
    proof := some proofHex
    public_inputs := some pubInputs
    proof_generation_time_ms := some genMs
    verification_result := some true
    payout_amount := some cov
    payout_amount_units := some units
    refund_tx_hash := some rtx
    recipient_address := some addr
    status := "paid"
    paid_at := some t
    http_response := none }

/-- `process_claim_async`: the background worker.  Loads the claim and its
policy, generates and verifies the proof, checks the failure flag, and
issues the refund — there is no on-chain attestation call on this path —
then persists the final `paid` record and flips the policy to `claimed`.
Any raise is caught and recorded through `exceptFail`. -/
def processClaimAsync (st : ClaimState) (ext : ExtBehavior) (t : Int)
    (claimId : String) : ClaimState × List Event :=
  match dget st.claims claimId with
  | none => (st, [])
  | some c =>
    match dget st.policies c.policy_id with
    | none => inlineFail st claimId "Policy not found"
    | some pol =>
      match c.http_response with
      | none =>
        -- http_response defaults to an empty dict, whose "status" access raises
        exceptFail st claimId "KeyError: status" t
      | some resp =>
        match ext.genProof with
        | none =>
          ((exceptFail st claimId "proof generation raised" t).1,
           .genProofCall resp.status ::
             (exceptFail st claimId "proof generation raised" t).2)
        | some (proofHex, pubInputs, genMs) =>
          match ext.verifyOk with
          | none =>
            ((exceptFail st claimId "proof verification raised" t).1,
             .genProofCall resp.status :: .verifyProofCall ::
               (exceptFail st claimId "proof verification raised" t).2)
          | some ok =>
            if ¬ ok then
              ((inlineFail st claimId "Generated proof is invalid").1,
               .genProofCall resp.status :: .verifyProofCall ::
                 (inlineFail st claimId "Generated proof is invalid").2)
            else
              match pubInputs with
              | [] =>
                ((exceptFail st claimId "IndexError: public_inputs" t).1,
                 .genProofCall resp.status :: .verifyProofCall ::
                   (exceptFail st claimId "IndexError: public_inputs" t).2)
              | i0 :: _ =>
                if i0 ≠ 1 then
                  ((inlineFail st claimId "No API failure detected in HTTP response").1,
                   .genProofCall resp.status :: .verifyProofCall ::
                     (inlineFail st claimId "No API failure detected in HTTP response").2)
                else
                  match c.agent_address, c.coverage_amount_units with
                  | some addr, some units =>
                    (match ext.refund with
                     | none =>
                       ((exceptFail st claimId "refund raised" t).1,
                        .genProofCall resp.status :: .verifyProofCall ::
                          .refundCall addr units :: (exceptFail st claimId "refund raised" t).2)
                     | some rtx =>
                       match c.coverage_amount with
                       | none =>
                         ((exceptFail st claimId "KeyError: coverage_amount" t).1,
                          .genProofCall resp.status :: .verifyProofCall ::
                            .refundCall addr units ::
                            (exceptFail st claimId "KeyError: coverage_amount" t).2)
                       | some cov =>
                         (⟨dset st.policies c.policy_id { pol with status := "claimed" },
                           dset st.claims claimId
                             (asyncPaidRecord c proofHex pubInputs genMs cov units rtx addr t)⟩,
                          [.genProofCall resp.status, .verifyProofCall,
                           .refundCall addr units,
                           .saveClaims (dset st.claims claimId
                             (asyncPaidRecord c proofHex pubInputs genMs cov units rtx addr t)),
                           .savePolicies (dset st.policies c.policy_id { pol with status := "claimed" })]))
                  | _, _ =>
                    -- claim['agent_address'] / claim['coverage_amount_units'] KeyError
                    exceptFail st claimId "KeyError: refund fields" t

/-! ## `/insure` and `/renew` (`server.py`) -/

/-- Runtime configuration knobs read from the environment. -/
structure ServerConfig where
  premiumPercentage : ℚ
  maxCoverage : ℚ
  policyDurationHours : Int
  paymentMaxAgeSeconds : Int
  deriving Repr, DecidableEq

/-- State shared by the payment-gated routes: the policy store and the
payment verifier with its nonce cache. -/
structure WebState where
  policies : Dict Policy
  verifier : Verifier
  deriving Repr, DecidableEq

inductive InsureResult where
  | badRequest (msg : String)
  | paymentRequired (requiredUnits : Int)
  | dbError
  | created (policyId agentAddress : String) (coverage premium : ℚ) (expiresAt : Int)
  deriving Repr, DecidableEq

/-- The dynamic premium of `/insure`: `coverage_amount * PREMIUM_PERCENTAGE`
(1 % by default). -/
def premiumOf (cfg : ServerConfig) (cov : ℚ) : ℚ :=
  ratMul cov cfg.premiumPercentage

/-- The premium in micro-USDC. -/
def premiumUnitsOf (cfg : ServerConfig) (cov : ℚ) : Int :=
  toMicro (premiumOf cfg cov)

/-- The `verify_payment` call made by `/insure`. -/
def insureVerify (cfg : ServerConfig) (st : WebState) (sig : SigOracle)
    (paymentHeader payerHeader : Option String) (t : Int) (cov : ℚ) :
    PaymentDetailsSolana × Verifier :=
  verifyPayment st.verifier sig t (paymentHeader.getD "") payerHeader
    (premiumUnitsOf cfg cov) cfg.paymentMaxAgeSeconds

/-- The policy record written by `/insure`. -/
def newPolicyRecord (cfg : ServerConfig) (sha : String → String)
    (pid payer url : String) (cov : ℚ) (t : Int) : Policy :=
  { policy_id := pid
    agent_address := payer
    merchant_url := url
    merchant_url_hash := sha url
    coverage_amount := cov
    coverage_amount_units := some (toMicro cov)
    premium := premiumOf cfg cov
    premium_units := premiumUnitsOf cfg cov
    status := "active"
    created_at := t
    expires_at := t + cfg.policyDurationHours * 3600 }

/-- The `/insure` route: request validation (merchant url and coverage
present, coverage positive and within the configured maximum), dynamic
premium, x402 payment verification, then policy creation.  `dbOk` is the
boolean outcome of `database.create_policy`. -/
def insure (cfg : ServerConfig) (st : WebState) (sig : SigOracle)
    (sha : String → String) (merchantUrl : Option String)
    (coverage : Option ℚ) (paymentHeader payerHeader : Option String)
    (t : Int) (newPolicyId : String) (dbOk : Bool) :
    InsureResult × WebState :=
  if merchantUrl.getD "" = "" ∨ coverage.getD 0 = 0 then
    (.badRequest "Missing merchant_url or coverage_amount", st)
  else
    match coverage with
    | none => (.badRequest "coverage_amount required", st)
    | some cov =>
      if cov ≤ 0 then (.badRequest "Coverage amount must be positive", st)
      else if cov > cfg.maxCoverage then
        (.badRequest "Coverage exceeds maximum", st)
      else if paymentHeader.getD "" = "" then
        (.paymentRequired (premiumUnitsOf cfg cov), st)
      else if ¬ (insureVerify cfg st sig paymentHeader payerHeader t cov).1.isValid then
        (.paymentRequired (premiumUnitsOf cfg cov),
         ⟨st.policies, (insureVerify cfg st sig paymentHeader payerHeader t cov).2⟩)
      else if ¬ dbOk then
        (.dbError,
         ⟨st.policies, (insureVerify cfg st sig paymentHeader payerHeader t cov).2⟩)
      else
        (.created newPolicyId
           (insureVerify cfg st sig paymentHeader payerHeader t cov).1.payer
           cov (premiumOf cfg cov) (t + cfg.policyDurationHours * 3600),
         ⟨dset st.policies newPolicyId
            (newPolicyRecord cfg sha newPolicyId
              (insureVerify cfg st sig paymentHeader payerHeader t cov).1.payer
              (merchantUrl.getD "") cov t),
          (insureVerify cfg st sig paymentHeader payerHeader t cov).2⟩)

inductive RenewResult where
  | badRequest (msg : String)
  | notFound
  | paymentRequired (requiredUnits : Int)
  | forbidden
  | renewed (policyId : String) (newExpiresAt renewalCount : Int)
  deriving Repr, DecidableEq

/-- The pro-rated renewal fee of `/renew`:
`coverage_amount * PREMIUM_PERCENTAGE * (extend_hours / 24)`. -/
def renewFee (cfg : ServerConfig) (pol : Policy) (extendHours : Int) : ℚ :=
  ratMul (ratMul pol.coverage_amount cfg.premiumPercentage) (mkRat extendHours 24)

/-- The `verify_payment` call made by `/renew`. -/
def renewVerify (cfg : ServerConfig) (st : WebState) (sig : SigOracle)
    (paymentHeader payerHeader : Option String) (t : Int) (pol : Policy)
    (extendHours : Int) : PaymentDetailsSolana × Verifier :=
  verifyPayment st.verifier sig t (paymentHeader.getD "") payerHeader
    (toMicro (renewFee cfg pol extendHours)) cfg.paymentMaxAgeSeconds

/-- The policy record after a successful renewal: `expires_at` extended,
renewal bookkeeping updated, status untouched. -/
def renewedPolicy (pol : Policy) (extendHours t : Int) (fee : ℚ) : Policy :=
  { pol with
    expires_at := pol.expires_at + extendHours * 3600
    renewed_at := some t
    renewal_count := some (pol.renewal_count.getD 0 + 1)
    total_renewal_fees := some (pol.total_renewal_fees.getD 0 + fee) }

/-- The `/renew` route: request and policy validation, pro-rated renewal
fee, payment verification, owner check (payer must equal the policy's
agent address case-insensitively, else 403), then the extension of
`expires_at` with renewal bookkeeping. -/
def renew (cfg : ServerConfig) (st : WebState) (sig : SigOracle)
    (policyId : Option String) (extendHours : Int)
    (paymentHeader payerHeader : Option String) (t : Int) :
    RenewResult × WebState :=
  if policyId.getD "" = "" then (.badRequest "Missing policy_id", st)
  else if extendHours < 1 ∨ extendHours > 168 then
    (.badRequest "extend_hours must be between 1 and 168", st)
  else
    match dget st.policies (policyId.getD "") with
    | none => (.notFound, st)
    | some pol =>
      if pol.status ≠ "active" then
        (.badRequest "Can only renew active policies", st)
      else if pol.expires_at < t then
        (.badRequest "Cannot renew expired policy", st)
      else if paymentHeader.getD "" = "" ∨ payerHeader.getD "" = "" then
        (.paymentRequired (toMicro (renewFee cfg pol extendHours)), st)
      else if ¬ (renewVerify cfg st sig paymentHeader payerHeader t pol extendHours).1.isValid then
        (.paymentRequired (toMicro (renewFee cfg pol extendHours)),
         ⟨st.policies, (renewVerify cfg st sig paymentHeader payerHeader t pol extendHours).2⟩)
      else if lowerStr (renewVerify cfg st sig paymentHeader payerHeader t pol extendHours).1.payer ≠
          lowerStr pol.agent_address then
        (.forbidden,
         ⟨st.policies, (renewVerify cfg st sig paymentHeader payerHeader t pol extendHours).2⟩)
      else
        (.renewed (policyId.getD "") (pol.expires_at + extendHours * 3600)
           (pol.renewal_count.getD 0 + 1),
         ⟨dset st.policies (policyId.getD "")
            (renewedPolicy pol extendHours t (renewFee cfg pol extendHours)),
          (renewVerify cfg st sig paymentHeader payerHeader t pol extendHours).2⟩)

/-! ## Trace predicates and sequential-execution helpers -/

/-- Is this an on-chain attestation call for claim `cid`? -/
def isStoreProofFor (cid : String) : Event → Bool
  | .storeProofCall c _ _ _ => c = cid
  | _ => false

/-- Is this any on-chain attestation call? -/
def isAttestCall : Event → Bool
  | .storeProofCall _ _ _ _ => true
  | _ => false

/-- Is this a payout (`issue_refund`) call? -/
def isRefundCall : Event → Bool
  | .refundCall _ _ => true
  | _ => false

/-- Is this a call to an external collaborator (oracle or blockchain)? -/
def isExternalCall : Event → Bool
  | .genProofCall _ => true
  | .verifyProofCall => true
  | .storeProofCall _ _ _ _ => true
  | .refundCall _ _ => true
  | _ => false

/-- Is this a durable save of the claims store? -/
def isSaveClaims : Event → Bool
  | .saveClaims _ => true
  | _ => false

/-- Does this event persist a claim record with the given status? -/
def savesClaimWithStatus (status : String) : Event → Bool
  | .saveClaims m => m.any (fun kv => kv.2.status = status)
  | _ => false

/-- Some `p`-event occurs strictly before some `q`-event. -/
def existsBefore (p q : Event → Bool) : List Event → Bool
  | [] => false
  | e :: rest => (p e && rest.any q) || existsBefore p q rest

/-- Every `p`-event is strictly preceded by some `q`-event. -/
def allPrecededBy (p q : Event → Bool) (tr : List Event) : Bool :=
  go false tr
where
  go : Bool → List Event → Bool
  | _, [] => true
  | seen, e :: rest => (!(p e) || seen) && go (seen || q e) rest

/-- The variable inputs of one synchronous `/claim` submission. -/
structure SyncSubmission where
  sha : String → String
  policyId : String
  resp : HttpResponse
  idemKey : Option String
  t : Int
  newClaimId : String
  ext : ExtBehavior

/-- Serialized execution of synchronous `/claim` submissions: each request
runs to completion before the next starts. -/
def runSyncSeq (st : ClaimState) : List SyncSubmission → ClaimState
  | [] => st
  | s :: rest =>
      runSyncSeq
        (claimSubmit st s.ext s.sha s.policyId s.resp s.idemKey false s.t s.newClaimId).2.1
        rest

/-- Is this stored claim a `paid` claim against policy `pid`? -/
def isPaidFor (pid : String) (kv : String × ClaimRecord) : Bool :=
  kv.2.policy_id == pid && kv.2.status == "paid"

/-- Number of claim records for policy `pid` that are in `paid` status. -/
def countPaidFor (st : ClaimState) (pid : String) : Nat :=
  st.claims.countP (isPaidFor pid)

/-- The exactly-once invariant for a policy: at most one paid claim, and
none at all while the policy is still `active`. -/
def exactlyOnceInv (pid : String) (st : ClaimState) : Prop :=
  countPaidFor st pid ≤ 1 ∧
  (∀ pol : Policy, dget st.policies pid = some pol → pol.status = "active" →
    countPaidFor st pid = 0)

/-! ## Shared concrete fixtures -/

/-- A body-hash stand-in for the example runs (the hash value itself is
never load-bearing). -/
def exSha : String → String := fun s => s ++ "#sha256"

/-- An active example policy with 100 USDC coverage and a 1 USDC premium
(1 %). -/
def exPolicy : Policy :=
  { policy_id := "P1"
    agent_address := "AG"
    merchant_url := "https://api.example.com"
    merchant_url_hash := "H"
    coverage_amount := 100
    coverage_amount_units := some 100000000
    premium := 1
    premium_units := 1000000
    status := "active"
    created_at := 100
    expires_at := 2000000 }

/-- Stores holding the example policy and no claims. -/
def exState : ClaimState := ⟨[("P1", exPolicy)], []⟩

/-- A captured 503 failure response. -/
def exResp : HttpResponse := ⟨503, "", []⟩

/-- External behaviour in which every collaborator call succeeds. -/
def extAllOk : ExtBehavior :=
  ⟨some ("abc", [1, 503, 0, 10000], 1500), some true, some "ATT", some "RTX"⟩

/-- External behaviour in which attestation succeeds but the refund call
raises a network error. -/
def extRefundRaises : ExtBehavior :=
  ⟨some ("abc", [1, 503, 0, 10000], 1500), some true, some "ATT", none⟩

/-- A signature oracle that accepts (an attacker or honest payer who can
produce a valid ed25519 signature over the message actually checked). -/
def sigAccept : SigOracle := fun _ _ _ _ _ _ _ => true

/-- A signature oracle that rejects (the presented signature is bad). -/
def sigReject : SigOracle := fun _ _ _ _ _ _ _ => false

/-- An example verifier: backend key `B`, mint `M`, empty nonce cache,
last cleanup at time 1000000. -/
def exVerifier : Verifier := ⟨"B", "M", [], 3600, 1000000⟩

/-- A fully populated, in-date payment header matching `exVerifier` and an
amount of 50000 micro-USDC. -/
def exHeader : String :=
  "payer=P,amount=50000,asset=M,payTo=B,timestamp=999990,nonce=N,signature=S"

/-- The same header with the `asset` field omitted entirely. -/
def exHeaderNoAsset : String :=
  "payer=P,amount=50000,payTo=B,timestamp=999990,nonce=N,signature=S"

/-- A verifier whose cache holds the already-used `(P, N)` pair, marked
long ago (stored timestamp 10) with no cleanup since time 0. -/
def exVerifierMarkedStale : Verifier :=
  ⟨"B", "M", [(nonceKey "P" "N", 10)], 3600, 0⟩

/-- A verifier whose cache holds an unrelated stale entry. -/
def exVerifierOtherStale : Verifier :=
  ⟨"B", "M", [(nonceKey "Q" "OLD", 10)], 3600, 0⟩

/-- A verifier whose cache holds the already-used `(P, N)` pair with a
recent stored timestamp and a recent cleanup. -/
def exVerifierMarkedFresh : Verifier :=
  ⟨"B", "M", [(nonceKey "P" "N", 999990)], 3600, 999999⟩

/-- An example synchronous `/claim` submission against `exPolicy`. -/
def exSub : SyncSubmission :=
  ⟨exSha, "P1", exResp, none, 1000, "CW", extAllOk⟩

/-- An example server configuration: 1 % premium, 100 USDC maximum
coverage, 24 h policies, 300 s payment freshness. -/
def exCfg : ServerConfig :=
  ⟨mkRat 1 100, 100, 24, 300⟩

/-- Web state holding the example policy and the example verifier. -/
def exWebState : WebState :=
  ⟨[("P1", exPolicy)], exVerifier⟩

/-- A payment header over 1 USDC (the renewal fee of `exPolicy` for 24 h)
from payer `P`, who is not the policy owner `AG`. -/
def exRenewHeader : String :=
  "payer=P,amount=1000000,asset=M,payTo=B,timestamp=999990,nonce=N,signature=S"

/-! ## Helper lemmas about the dictionary operations -/

theorem dget_dset_self {α : Type} (d : Dict α) (k : String) (v : α) :
    dget (dset d k v) k = some v := by
  induction d with
  | nil => simp [dset, dget]
  | cons kv rest ih =>
    by_cases h : kv.1 = k
    · simp [dset, h, dget]
    · simp [dset, h, dget, ih]

theorem dget_dset_ne {α : Type} (d : Dict α) (k k2 : String) (v : α)
    (h : k ≠ k2) : dget (dset d k v) k2 = dget d k2 := by
  induction d with
  | nil => simp [dset, dget, h]
  | cons kv rest ih =>
    by_cases hk : kv.1 = k
    · simp [dset, hk, dget, h]
    · simp [dset, hk, dget, ih]

theorem dget_filter {α : Type} (p : String × α → Bool) (d : Dict α)
    (k : String) (a : α) (h : dget d k = some a) (hp : p (k, a) = true) :
    dget (d.filter p) k = some a := by
  induction d with
  | nil => simp [dget] at h
  | cons kv rest ih =>
    by_cases hk : kv.1 = k
    · rw [dget] at h
      rw [if_pos hk] at h
      cases h
      cases kv
      cases hk
      rw [List.filter_cons, if_pos hp, dget, if_pos rfl]
    · rw [dget] at h
      rw [if_neg hk] at h
      rw [List.filter_cons]
      by_cases hkeep : p kv = true
      · rw [if_pos hkeep, dget, if_neg hk]
        exact ih h
      · rw [if_neg hkeep]
        exact ih h

/-! ## Helper lemmas about the payment verifier -/

/-- `required_amount = 0` forces every `verify_payment` outcome invalid:
a zero amount fails the falsy-field check and a non-zero amount fails the
exact-equality comparison. -/
theorem verifyParsed_required_zero (v : Verifier) (sig : SigOracle) (t : Int)
    (pd : Dict String) (payerAddr : Option String) (maxAge : Int) :
    (verifyParsed v sig t pd payerAddr 0 maxAge).1.isValid = false := by
  unfold verifyParsed
  by_cases hemp : pd.isEmpty
  · rw [if_pos hemp]
    rfl
  · rw [if_neg hemp]
    rcases hA : getIntField pd "amount" with _ | a
    · simp [hA]
      rfl
    · rcases hT : getIntField pd "timestamp" with _ | ts
      · simp [hA, hT]
        rfl
      · simp only [hA, hT]
        by_cases hc : fieldPayer pd payerAddr = "" ∨ a = 0 ∨ fieldAsset v pd = "" ∨
            fieldPayTo v pd = "" ∨ ts = 0 ∨ fieldNonce pd = "" ∨ fieldSignature pd = ""
        · rw [if_pos hc]
          rfl
        · rw [if_neg hc]
          have ha0 : a ≠ 0 := by tauto
          rw [if_pos ha0]
          rfl

/-- A missing, empty or zero amount, timestamp, nonce, signature, or payer
(after the X-Payer fallback) makes `verify_payment` invalid. -/
theorem verifyParsed_missing_core_field (v : Verifier) (sig : SigOracle)
    (t : Int) (pd : Dict String) (payerAddr : Option String)
    (req maxAge : Int)
    (h : getIntField pd "amount" = some 0 ∨ getIntField pd "amount" = none ∨
         getIntField pd "timestamp" = some 0 ∨ getIntField pd "timestamp" = none ∨
         fieldPayer pd payerAddr = "" ∨ fieldNonce pd = "" ∨ fieldSignature pd = "") :
    (verifyParsed v sig t pd payerAddr req maxAge).1.isValid = false := by
  unfold verifyParsed
  by_cases hemp : pd.isEmpty
  · rw [if_pos hemp]
    rfl
  · rw [if_neg hemp]
    rcases hA : getIntField pd "amount" with _ | a
    · simp [hA]
      rfl
    · rcases hT : getIntField pd "timestamp" with _ | ts
      · simp [hA, hT]
        rfl
      · simp only [hA, hT]
        have hc : fieldPayer pd payerAddr = "" ∨ a = 0 ∨ fieldAsset v pd = "" ∨
            fieldPayTo v pd = "" ∨ ts = 0 ∨ fieldNonce pd = "" ∨ fieldSignature pd = "" := by
          rcases h with h | h | h | h | h | h | h
          · rw [hA] at h
            exact Or.inr (Or.inl (Option.some.inj h))
          · rw [hA] at h
            simp at h
          · rw [hT] at h
            exact Or.inr (Or.inr (Or.inr (Or.inr (Or.inl (Option.some.inj h)))))
          · rw [hT] at h
            simp at h
          · exact Or.inl h
          · exact Or.inr (Or.inr (Or.inr (Or.inr (Or.inr (Or.inl h)))))
          · exact Or.inr (Or.inr (Or.inr (Or.inr (Or.inr (Or.inr h)))))
        rw [if_pos hc]
        rfl

/-- The verifier state coming out of `_is_nonce_used` never gains cache
entries (it only garbage-collects). -/
theorem isNonceUsed_cache_sub (v : Verifier) (p n : String) (t : Int) :
    ∀ kv ∈ (isNonceUsed v p n t).2.nonceCache, kv ∈ v.nonceCache := by
  unfold isNonceUsed
  dsimp only
  split
  · intro kv h
    exact List.mem_of_mem_filter h
  · intro kv h
    exact h

/-- A `(payer, nonce)` pair whose cache entry is recent enough to survive
garbage collection forces the replay check to fire, so the verification
is invalid. -/
theorem verifyParsed_replay_rejected (v : Verifier) (sig : SigOracle) (t : Int)
    (pd : Dict String) (payerAddr : Option String) (req maxAge ts0 : Int)
    (hmem : dget v.nonceCache (nonceKey (fieldPayer pd payerAddr) (fieldNonce pd)) = some ts0)
    (hfresh : ¬ ts0 < t - 3600) :
    (verifyParsed v sig t pd payerAddr req maxAge).1.isValid = false := by
  have hused : (isNonceUsed v (fieldPayer pd payerAddr) (fieldNonce pd) t).1 = true := by
    unfold isNonceUsed
    dsimp only
    split
    · unfold dcontains cleanupOldNonces
      dsimp only
      rw [dget_filter _ _ _ _ hmem (by simpa using hfresh)]
      rfl
    · unfold dcontains
      rw [hmem]
      rfl
  unfold verifyParsed
  repeat' split
  all_goals first
    | rfl
    | simp_all

/-- Every run of the verifier either fully succeeds or leaves a nonce
cache that is a subset of the one it started from: a failed verification
never marks any nonce used. -/
theorem verifyParsed_valid_or_no_mark (v : Verifier) (sig : SigOracle) (t : Int)
    (pd : Dict String) (payerAddr : Option String) (req maxAge : Int) :
    (verifyParsed v sig t pd payerAddr req maxAge).1.isValid = true ∨
    (∀ kv ∈ (verifyParsed v sig t pd payerAddr req maxAge).2.nonceCache,
      kv ∈ v.nonceCache) := by
  unfold verifyParsed
  by_cases hemp : pd.isEmpty
  · rw [if_pos hemp]
    right
    intro kv hkv
    exact hkv
  · rw [if_neg hemp]
    rcases hA : getIntField pd "amount" with _ | a
    · simp only [hA]
      right
      intro kv hkv
      exact hkv
    · rcases hT : getIntField pd "timestamp" with _ | ts
      · simp only [hA, hT]
        right
        intro kv hkv
        exact hkv
      · simp only [hA, hT]
        repeat' split
        all_goals
          first
          | (left; rfl)
          | (right; intro kv hkv; exact hkv)
          | (right; intro kv hkv;
             exact isNonceUsed_cache_sub v (fieldPayer pd payerAddr) (fieldNonce pd) t kv hkv)

/-! ## Arithmetic sanity lemmas -/

/-- `ratMul` is ordinary rational multiplication. -/
theorem ratMul_eq_mul (a b : ℚ) : ratMul a b = a * b := by
  rw [ratMul, Rat.mkRat_eq_div]
  push_cast
  conv_rhs => rw [← Rat.num_div_den a, ← Rat.num_div_den b]
  rw [div_mul_div_comm]

/-- On non-negative amounts `toMicro` is the floor of `q·10⁶` (and
truncation toward zero and floor agree there, as in the source's
`ROUND_DOWN`). -/
theorem toMicro_eq_floor (q : ℚ) (hq : 0 ≤ q) : toMicro q = ⌊q * 1000000⌋ := by
  have h1 : q * 1000000 = ((q.num * 1000000 : ℤ) : ℚ) / ((q.den : ℕ) : ℚ) := by
    push_cast
    conv_lhs => rw [← Rat.num_div_den q]
    ring
  rw [toMicro, h1, Rat.floor_intCast_div_natCast]
  exact Int.tdiv_eq_ediv (by positivity) (by positivity)

/-! ## Helper lemmas about the claim lifecycle -/

theorem exceptFail_no_attest (st : ClaimState) (cid msg : String) (t : Int) :
    (exceptFail st cid msg t).2.any isAttestCall = false := by
  unfold exceptFail
  split
  · rfl
  · rfl

theorem inlineFail_no_attest (st : ClaimState) (cid msg : String) :
    (inlineFail st cid msg).2.any isAttestCall = false := by
  unfold inlineFail
  split
  · rfl
  · rfl

/-- The asynchronous worker never calls `store_proof_on_chain`: no event
of any of its runs is an attestation call. -/
theorem processClaimAsync_no_attest (st : ClaimState) (ext : ExtBehavior)
    (t : Int) (cid : String) :
    (processClaimAsync st ext t cid).2.any isAttestCall = false := by
  unfold processClaimAsync
  repeat' split
  all_goals
    simp [List.any_cons, isAttestCall, exceptFail_no_attest, inlineFail_no_attest]

/-- A synchronous run that answers `paid` has attested on-chain before
the refund call and stored the attestation reference on the claim. -/
theorem syncProcess_paid_attested (st : ClaimState) (ext : ExtBehavior)
    (sha : String → String) (pid : String) (pol : Policy) (resp : HttpResponse)
    (idem : Option String) (t : Int) (cid : String)
    (a b pf : String) (pins : List Int) (q : ℚ) (rtx : String)
    (h : (syncProcess st ext sha pid pol resp idem t cid).1 =
      ClaimResponse.paid a b pf pins q rtx) :
    existsBefore (isStoreProofFor cid) isRefundCall
      (syncProcess st ext sha pid pol resp idem t cid).2.2 = true ∧
    (dget (syncProcess st ext sha pid pol resp idem t cid).2.1.claims cid).bind
      ClaimRecord.attestation_tx_hash = ext.storeProof := by
  unfold syncProcess at h ⊢
  repeat' split at h
  all_goals simp_all [existsBefore, isStoreProofFor, isRefundCall,
    dget_dset_self, mkPaidClaimRecord]

theorem replayResponse_ne_accepted (r : ClaimRecord) (a b : String) :
    replayResponse r ≠ ClaimResponse.accepted a b := by
  unfold replayResponse
  repeat' split
  all_goals simp

theorem replayResponse_ne_paid (r : ClaimRecord) (a b pf : String)
    (pins : List Int) (q : ℚ) (rtx : String) :
    replayResponse r ≠ ClaimResponse.paid a b pf pins q rtx := by
  unfold replayResponse
  repeat' split
  all_goals simp

theorem replayResponse_ne_refundFailed (r : ClaimRecord) (msg att : String) :
    replayResponse r ≠ ClaimResponse.refundFailed msg att := by
  unfold replayResponse
  repeat' split
  all_goals simp

/-- `claimSubmit` in synchronous mode, answering `paid`: attestation
precedes the refund in the trace and the reference is on the record. -/
theorem claimSubmit_paid_attested (st : ClaimState) (ext : ExtBehavior)
    (sha : String → String) (pid : String) (resp : HttpResponse)
    (idem : Option String) (t : Int) (cid : String)
    (a b pf : String) (pins : List Int) (q : ℚ) (rtx : String)
    (h : (claimSubmit st ext sha pid resp idem false t cid).1 =
      ClaimResponse.paid a b pf pins q rtx) :
    existsBefore (isStoreProofFor cid) isRefundCall
      (claimSubmit st ext sha pid resp idem false t cid).2.2 = true ∧
    (dget (claimSubmit st ext sha pid resp idem false t cid).2.1.claims cid).bind
      ClaimRecord.attestation_tx_hash = ext.storeProof := by
  unfold claimSubmit at h ⊢
  repeat' split at h
  · exact absurd h (replayResponse_ne_paid _ a b pf pins q rtx)
  · simp at h
  · simp at h
  · simp at h
  · simp_all
  · rename_i hpol hactive hexp hasync
    rw [if_neg hactive, if_neg hexp, if_neg hasync]
    exact syncProcess_paid_attested st ext sha pid _ resp idem t cid a b pf pins q rtx h

/-- Synchronous traces only save stores after an external call has
already happened. -/
theorem syncProcess_saves_after_ext (st : ClaimState) (ext : ExtBehavior)
    (sha : String → String) (pid : String) (pol : Policy) (resp : HttpResponse)
    (idem : Option String) (t : Int) (cid : String) :
    allPrecededBy isSaveClaims isExternalCall
      (syncProcess st ext sha pid pol resp idem t cid).2.2 = true := by
  unfold syncProcess
  repeat' split
  all_goals rfl

/-- An accepted asynchronous submission's whole trace is one save of a
`processing` record (no external call). -/
theorem claimSubmit_async_accepted (st : ClaimState) (ext : ExtBehavior)
    (sha : String → String) (pid : String) (resp : HttpResponse)
    (idem : Option String) (t : Int) (cid : String) (a b : String)
    (st2 : ClaimState) (tr : List Event)
    (h : claimSubmit st ext sha pid resp idem true t cid =
      (ClaimResponse.accepted a b, st2, tr)) :
    ∃ m, tr = [Event.saveClaims m] ∧
      (dget m cid).map ClaimRecord.status = some "processing" := by
  unfold claimSubmit at h
  repeat' split at h
  · rw [Prod.mk.injEq] at h
    exact absurd h.1 (replayResponse_ne_accepted _ a b)
  · simp at h
  · simp at h
  · simp at h
  · rw [asyncAccept, Prod.mk.injEq, Prod.mk.injEq] at h
    obtain ⟨hab, hst, htr⟩ := h
    refine ⟨_, htr.symm, ?_⟩
    rw [dget_dset_self]
    rfl
  · simp_all

/-- In synchronous mode every durable claims save in the trace is
preceded by an external call. -/
theorem claimSubmit_sync_saves_after_ext (st : ClaimState) (ext : ExtBehavior)
    (sha : String → String) (pid : String) (resp : HttpResponse)
    (idem : Option String) (t : Int) (cid : String) :
    allPrecededBy isSaveClaims isExternalCall
      (claimSubmit st ext sha pid resp idem false t cid).2.2 = true := by
  unfold claimSubmit
  repeat' split
  all_goals first
    | rfl
    | exact syncProcess_saves_after_ext st ext sha pid _ resp idem t cid
    | simp_all

theorem syncProcess_refundFailed (st : ClaimState) (ext : ExtBehavior)
    (sha : String → String) (pid : String) (pol : Policy) (resp : HttpResponse)
    (idem : Option String) (t : Int) (cid : String) (msg att : String)
    (h : (syncProcess st ext sha pid pol resp idem t cid).1 =
      ClaimResponse.refundFailed msg att) :
    (syncProcess st ext sha pid pol resp idem t cid).2.1 = st ∧
    ext.storeProof = some att ∧ ext.refund = none := by
  unfold syncProcess at h ⊢
  repeat' split at h
  all_goals simp_all

/-- A synchronous `/claim` run whose refund raised after a successful
attestation: the response carries the attestation reference, but no store
was changed — in particular no claim record exists and the policy is
still `active`. -/
theorem claimSubmit_refundFailed (st : ClaimState) (ext : ExtBehavior)
    (sha : String → String) (pid : String) (resp : HttpResponse)
    (idem : Option String) (t : Int) (cid : String) (msg att : String)
    (h : (claimSubmit st ext sha pid resp idem false t cid).1 =
      ClaimResponse.refundFailed msg att) :
    (claimSubmit st ext sha pid resp idem false t cid).2.1 = st ∧
    ext.storeProof = some att ∧ ext.refund = none ∧
    (dget st.policies pid).map Policy.status = some "active" ∧
    dget (claimSubmit st ext sha pid resp idem false t cid).2.1.claims cid =
      dget st.claims cid := by
  unfold claimSubmit at h ⊢
  repeat' split at h
  · exact absurd h (replayResponse_ne_refundFailed _ msg att)
  · simp at h
  · simp at h
  · simp at h
  · simp_all
  · rename_i hpol hactive hexp hasync
    have hs := syncProcess_refundFailed st ext sha pid _ resp idem t cid msg att h
    rw [if_neg hactive, if_neg hexp, if_neg hasync]
    refine ⟨hs.1, hs.2.1, hs.2.2, ?_, ?_⟩
    · rw [hpol]
      simp_all
    · rw [hs.1]

theorem exceptFail_failed (st : ClaimState) (cid msg : String) (t : Int)
    (c : ClaimRecord) (hc : dget st.claims cid = some c) :
    dget (exceptFail st cid msg t).1.claims cid =
      some { c with status := "failed", errorMsg := some msg, failed_at := some t } := by
  unfold exceptFail
  rw [hc]
  exact dget_dset_self _ _ _

theorem inlineFail_failed (st : ClaimState) (cid msg : String)
    (c : ClaimRecord) (hc : dget st.claims cid = some c) :
    dget (inlineFail st cid msg).1.claims cid =
      some { c with status := "failed", errorMsg := some msg } := by
  unfold inlineFail
  rw [hc]
  exact dget_dset_self _ _ _

/-- When the refund call raises, the asynchronous worker marks the claim
`failed`; the attestation field (never written on this path) keeps its
old value. -/
theorem processClaimAsync_refund_raises (st : ClaimState) (ext : ExtBehavior)
    (t : Int) (cid : String) (c : ClaimRecord)
    (hrf : ext.refund = none) (hc : dget st.claims cid = some c) :
    ∃ r, dget (processClaimAsync st ext t cid).1.claims cid = some r ∧
      r.status = "failed" ∧ r.attestation_tx_hash = c.attestation_tx_hash := by
  unfold processClaimAsync
  repeat' split
  all_goals first
    | exact ⟨_, exceptFail_failed st cid _ t c (by assumption), rfl, rfl⟩
    | exact ⟨_, inlineFail_failed st cid _ c (by assumption), rfl, rfl⟩
    | simp_all

theorem countP_dset_le {α : Type} (p : String × α → Bool) (d : Dict α)
    (k : String) (v : α) (h : p (k, v) = false) :
    (dset d k v).countP p ≤ d.countP p := by
  induction d with
  | nil => simp [dset, List.countP_cons, h]
  | cons kv rest ih =>
    rcases kv with ⟨k1, v1⟩
    by_cases hk : k1 = k
    · subst hk
      simp only [dset, eq_self_iff_true, if_true, List.countP_cons, h]
      cases hp2 : p (k1, v1) <;> simp <;> omega
    · simp only [dset, if_neg hk, List.countP_cons]
      omega

theorem countP_dset_le_succ {α : Type} (p : String × α → Bool) (d : Dict α)
    (k : String) (v : α) :
    (dset d k v).countP p ≤ d.countP p + 1 := by
  induction d with
  | nil => cases hp : p (k, v) <;> simp [dset, List.countP_cons, hp]
  | cons kv rest ih =>
    rcases kv with ⟨k1, v1⟩
    by_cases hk : k1 = k
    · subst hk
      simp only [dset, eq_self_iff_true, if_true, List.countP_cons]
      cases hp1 : p (k1, v) <;> cases hp2 : p (k1, v1) <;> simp <;> omega
    · simp only [dset, if_neg hk, List.countP_cons]
      omega

/-- Inserting a claim record that is not a paid claim against `P`
preserves the exactly-once invariant. -/
theorem inv_after_insert_nonpaid (P cid : String) (st : ClaimState)
    (rec2 : ClaimRecord) (hfalse : isPaidFor P (cid, rec2) = false)
    (hinv : exactlyOnceInv P st) :
    exactlyOnceInv P ⟨st.policies, dset st.claims cid rec2⟩ := by
  constructor
  · have hle := countP_dset_le (isPaidFor P) st.claims cid rec2 hfalse
    have h1 := hinv.1
    unfold countPaidFor at h1 ⊢
    dsimp only at *
    omega
  · intro pol' hp' ha'
    have h0 := hinv.2 pol' hp' ha'
    have hle := countP_dset_le (isPaidFor P) st.claims cid rec2 hfalse
    unfold countPaidFor at h0 ⊢
    dsimp only at *
    omega

/-- The paid-path state transition (insert one paid claim against `pid`,
flip that policy to `claimed`) preserves the exactly-once invariant,
because it is only reachable while the policy is still `active`. -/
theorem inv_after_paid (P pid cid : String) (st : ClaimState) (pol : Policy)
    (rec2 : ClaimRecord) (hrecpid : rec2.policy_id = pid)
    (hpol : dget st.policies pid = some pol) (hactive : pol.status = "active")
    (hinv : exactlyOnceInv P st) (pol2 : Policy)
    (hpol2 : pol2.status = "claimed") :
    exactlyOnceInv P ⟨dset st.policies pid pol2, dset st.claims cid rec2⟩ := by
  constructor
  · by_cases hP : pid = P
    · subst hP
      have h0 : countPaidFor st pid = 0 := hinv.2 pol hpol hactive
      have hle := countP_dset_le_succ (isPaidFor pid) st.claims cid rec2
      unfold countPaidFor at h0 ⊢
      dsimp only at *
      omega
    · have hfalse : isPaidFor P (cid, rec2) = false := by
        simp [isPaidFor, hrecpid, hP]
      have hle := countP_dset_le (isPaidFor P) st.claims cid rec2 hfalse
      have h1 := hinv.1
      unfold countPaidFor at h1 ⊢
      dsimp only at *
      omega
  · intro pol' hp' ha'
    by_cases hP : pid = P
    · subst hP
      rw [dget_dset_self] at hp'
      cases hp'
      rw [hpol2] at ha'
      simp at ha'
    · rw [dget_dset_ne _ _ _ _ hP] at hp'
      have h0 := hinv.2 pol' hp' ha'
      have hfalse : isPaidFor P (cid, rec2) = false := by
        simp [isPaidFor, hrecpid, hP]
      have hle := countP_dset_le (isPaidFor P) st.claims cid rec2 hfalse
      unfold countPaidFor at h0 ⊢
      dsimp only at *
      omega

theorem syncProcess_preserves_inv (P : String) (st : ClaimState)
    (ext : ExtBehavior) (sha : String → String) (pid : String) (pol : Policy)
    (resp : HttpResponse) (idem : Option String) (t : Int) (cid : String)
    (hpol : dget st.policies pid = some pol) (hactive : pol.status = "active")
    (hinv : exactlyOnceInv P st) :
    exactlyOnceInv P (syncProcess st ext sha pid pol resp idem t cid).2.1 := by
  unfold syncProcess
  repeat' split
  all_goals first
    | exact hinv
    | exact inv_after_paid P pid cid st pol _ rfl hpol hactive hinv _ rfl

/-- One `/claim` submission (either mode) preserves the exactly-once
invariant for any policy `P`. -/
theorem claimSubmit_preserves_inv (P : String) (st : ClaimState)
    (ext : ExtBehavior) (sha : String → String) (pid : String)
    (resp : HttpResponse) (idem : Option String) (amode : Bool) (t : Int)
    (cid : String) (hinv : exactlyOnceInv P st) :
    exactlyOnceInv P (claimSubmit st ext sha pid resp idem amode t cid).2.1 := by
  unfold claimSubmit
  repeat' split
  all_goals first
    | exact hinv
    | exact inv_after_insert_nonpaid P cid st _ (by simp [isPaidFor, mkAsyncClaimRecord]) hinv
    | (rename_i pol hpol hactive hexp hamode
       exact syncProcess_preserves_inv P st ext sha pid pol resp idem t cid hpol
         (not_not.mp hactive) hinv)

/-- Serialized synchronous submissions preserve the exactly-once
invariant, by induction on the submission sequence. -/
theorem runSyncSeq_preserves_inv (P : String) (st : ClaimState)
    (subs : List SyncSubmission) (hinv : exactlyOnceInv P st) :
    exactlyOnceInv P (runSyncSeq st subs) := by
  induction subs generalizing st with
  | nil => exact hinv
  | cons s rest ih =>
    exact ih _ (claimSubmit_preserves_inv P st s.ext s.sha s.policyId s.resp
      s.idemKey false s.t s.newClaimId hinv)

/-! ## Claims C6, C7, C8: the payment verifier -/

/-- C6, counterexample.  The claim asserts both (i) that a `(payer,
nonce)` pair once marked used is rejected on every later presentation and
(ii) that a failed verification leaves the nonce ledger unchanged.  Both
conjuncts fail on the code because `_is_nonce_used` garbage-collects
entries older than one hour: in `exVerifierMarkedStale` the pair `(P, N)`
is marked used, yet the same header verifies successfully again at time
1000000 (the hour-old entry is collected before the membership test), and
in `exVerifierOtherStale` a verification that fails on the signature
still shrinks the ledger. -/
theorem C6_counterexample :
    dcontains exVerifierMarkedStale.nonceCache (nonceKey "P" "N") = true ∧
    (verifyPayment exVerifierMarkedStale sigAccept 1000000 exHeader none 50000 300).1.isValid = true ∧
    (verifyPayment exVerifierOtherStale sigReject 1000000 exHeader none 50000 300).1.isValid = false ∧
    (verifyPayment exVerifierOtherStale sigReject 1000000 exHeader none 50000 300).2.nonceCache ≠
      exVerifierOtherStale.nonceCache := by
  decide

/-- C6 (amended): a marked `(payer, nonce)` pair is rejected on any later
presentation as long as its ledger entry is new enough to survive the
one-hour garbage collection; and a failed verification never adds any
entry to the nonce ledger (it can only shrink it through garbage
collection). -/
theorem C6_nonce_replay_and_no_mark (v : Verifier) (sig : SigOracle)
    (t : Int) (hdr : String) (payerAddr : Option String)
    (req maxAge ts0 : Int) :
    (dget v.nonceCache
        (nonceKey (fieldPayer (parsePaymentHeader hdr) payerAddr)
          (fieldNonce (parsePaymentHeader hdr))) = some ts0 →
      ¬ ts0 < t - 3600 →
      (verifyPayment v sig t hdr payerAddr req maxAge).1.isValid = false) ∧
    ((verifyPayment v sig t hdr payerAddr req maxAge).1.isValid = false →
      ∀ kv ∈ (verifyPayment v sig t hdr payerAddr req maxAge).2.nonceCache,
        kv ∈ v.nonceCache) := by
  constructor
  · intro hmem hfresh
    exact verifyParsed_replay_rejected v sig t (parsePaymentHeader hdr)
      payerAddr req maxAge ts0 hmem hfresh
  · intro hfail
    rcases verifyParsed_valid_or_no_mark v sig t (parsePaymentHeader hdr)
      payerAddr req maxAge with hvalid | hsub
    · rw [verifyPayment] at hfail
      rw [hvalid] at hfail
      cases hfail
    · exact hsub

/-- C6, witness: the amended theorem applied to the fresh-entry verifier
rejects the replayed header even though every other field is valid and
the signature oracle accepts. -/
theorem C6_witness :
    (verifyPayment exVerifierMarkedFresh sigAccept 1000000 exHeader none 50000 300).1.isValid = false :=
  (C6_nonce_replay_and_no_mark exVerifierMarkedFresh sigAccept 1000000
    exHeader none 50000 300 999990).1 (by decide) (by decide)

/-- C7, counterexample.  The claim asserts `verify_payment` is invalid
whenever the `asset` (among others) is absent from the parsed header; in
the code an absent `asset` silently defaults to the configured mint and
the shown header (no `asset` key, everything else valid, signature
accepted) verifies successfully. -/
theorem C7_counterexample :
    dget (parsePaymentHeader exHeaderNoAsset) "asset" = none ∧
    (verifyPayment exVerifier sigAccept 1000000 exHeaderNoAsset none 50000 300).1.isValid = true := by
  decide

/-- C7 (amended): `verify_payment` returns invalid whenever the amount or
timestamp is absent, zero or unparseable, the nonce or signature is
absent or empty, or the payer is empty after the `X-Payer` fallback;
absent `asset` and `payTo` fields instead default to the configured mint
and backend address (and absent `payer` to the `X-Payer` header), and are
then accepted by the equality checks. -/
theorem C7_missing_field_invalid (v : Verifier) (sig : SigOracle) (t : Int)
    (hdr : String) (payerAddr : Option String) (req maxAge : Int)
    (h : getIntField (parsePaymentHeader hdr) "amount" = some 0 ∨
         getIntField (parsePaymentHeader hdr) "amount" = none ∨
         getIntField (parsePaymentHeader hdr) "timestamp" = some 0 ∨
         getIntField (parsePaymentHeader hdr) "timestamp" = none ∨
         fieldPayer (parsePaymentHeader hdr) payerAddr = "" ∨
         fieldNonce (parsePaymentHeader hdr) = "" ∨
         fieldSignature (parsePaymentHeader hdr) = "") :
    (verifyPayment v sig t hdr payerAddr req maxAge).1.isValid = false :=
  verifyParsed_missing_core_field v sig t (parsePaymentHeader hdr)
    payerAddr req maxAge h

/-- C7, witness: a header without a nonce field is rejected. -/
theorem C7_witness :
    (verifyPayment exVerifier sigAccept 1000000
      "payer=P,amount=50000,asset=M,payTo=B,timestamp=999990,signature=S"
      none 50000 300).1.isValid = false :=
  C7_missing_field_invalid exVerifier sigAccept 1000000
    "payer=P,amount=50000,asset=M,payTo=B,timestamp=999990,signature=S"
    none 50000 300 (by decide)

/-- C8: with `required_amount = 0` every `verify_payment` call returns
invalid, for any header, verifier state, time and signature oracle: a
zero amount is rejected by the falsy-field check, and a non-zero amount
fails the exact-equality comparison against the required 0.  Hence a
policy whose premium truncates to 0 micro-USDC cannot be purchased
through the full verifier. -/
theorem C8_zero_required_amount_never_valid (v : Verifier) (sig : SigOracle)
    (t : Int) (hdr : String) (payerAddr : Option String) (maxAge : Int) :
    (verifyPayment v sig t hdr payerAddr 0 maxAge).1.isValid = false :=
  verifyParsed_required_zero v sig t (parsePaymentHeader hdr) payerAddr maxAge

/-! ## Claims C1 to C5: the claim lifecycle -/

/-- C1, counterexample.  The claim asserts that every claim reaching
`paid` — on either path — had a successful `store_proof_on_chain` call
before the `issue_refund` call, with the attestation reference attached.
On the asynchronous path this is false: in the run shown, the claim
`CA` is paid, a refund call occurred, yet the combined trace contains no
attestation call and the stored record has no attestation reference. -/
theorem C1_counterexample :
    ((dget (processClaimAsync (claimSubmit exState extAllOk exSha "P1" exResp none true 1000 "CA").2.1
        extAllOk 1100 "CA").1.claims "CA").map ClaimRecord.status = some "paid") ∧
    (((claimSubmit exState extAllOk exSha "P1" exResp none true 1000 "CA").2.2 ++
      (processClaimAsync (claimSubmit exState extAllOk exSha "P1" exResp none true 1000 "CA").2.1
        extAllOk 1100 "CA").2).any isAttestCall = false) ∧
    (((processClaimAsync (claimSubmit exState extAllOk exSha "P1" exResp none true 1000 "CA").2.1
        extAllOk 1100 "CA").2).any isRefundCall = true) ∧
    ((dget (processClaimAsync (claimSubmit exState extAllOk exSha "P1" exResp none true 1000 "CA").2.1
        extAllOk 1100 "CA").1.claims "CA").bind ClaimRecord.attestation_tx_hash = none) := by
  decide

/-- C1 (amended): only the synchronous `/claim` path attests before
paying: a synchronous run that answers `paid` has a `store_proof_on_chain`
call for the claim id strictly before the `issue_refund` call in its
trace, and the attestation transaction reference is attached to the
persisted record; the asynchronous worker (`process_claim_async`) never
makes an attestation call at all. -/
theorem C1_attest_before_refund_sync_only :
    (∀ (st : ClaimState) (ext : ExtBehavior) (sha : String → String)
       (pid : String) (resp : HttpResponse) (idem : Option String) (t : Int)
       (cid a b pf : String) (pins : List Int) (q : ℚ) (rtx : String),
      (claimSubmit st ext sha pid resp idem false t cid).1 =
        ClaimResponse.paid a b pf pins q rtx →
      existsBefore (isStoreProofFor cid) isRefundCall
        (claimSubmit st ext sha pid resp idem false t cid).2.2 = true ∧
      (dget (claimSubmit st ext sha pid resp idem false t cid).2.1.claims cid).bind
        ClaimRecord.attestation_tx_hash = ext.storeProof) ∧
    (∀ (st : ClaimState) (ext : ExtBehavior) (t : Int) (cid : String),
      (processClaimAsync st ext t cid).2.any isAttestCall = false) :=
  ⟨fun st ext sha pid resp idem t cid a b pf pins q rtx h =>
    claimSubmit_paid_attested st ext sha pid resp idem t cid a b pf pins q rtx h,
   fun st ext t cid => processClaimAsync_no_attest st ext t cid⟩

/-- C1, witness: the amended theorem applied to a successful synchronous
run of the example claim. -/
theorem C1_witness :
    existsBefore (isStoreProofFor "CC") isRefundCall
      (claimSubmit exState extAllOk exSha "P1" exResp none false 1000 "CC").2.2 = true ∧
    (dget (claimSubmit exState extAllOk exSha "P1" exResp none false 1000 "CC").2.1.claims "CC").bind
      ClaimRecord.attestation_tx_hash = extAllOk.storeProof :=
  C1_attest_before_refund_sync_only.1 exState extAllOk exSha "P1" exResp none
    1000 "CC" "CC" "P1" "abc" [1, 503, 0, 10000] 100 "RTX" (by decide)

/-- C2, counterexample.  The claim asserts at most one `paid` claim and
one payout per policy across duplicate submissions.  Two asynchronous
submissions against the same active policy are both accepted (the
background worker never re-checks the policy status), and both are then
paid: two refund calls are made for one policy. -/
theorem C2_counterexample :
    ((claimSubmit exState extAllOk exSha "P1" exResp none true 1000 "CA").1 =
      ClaimResponse.accepted "CA" "P1") ∧
    ((claimSubmit (claimSubmit exState extAllOk exSha "P1" exResp none true 1000 "CA").2.1
        extAllOk exSha "P1" exResp none true 1001 "CB").1 = ClaimResponse.accepted "CB" "P1") ∧
    ((dget (processClaimAsync (processClaimAsync (claimSubmit (claimSubmit exState extAllOk exSha "P1" exResp none true 1000 "CA").2.1
        extAllOk exSha "P1" exResp none true 1001 "CB").2.1 extAllOk 1100 "CA").1 extAllOk 1200 "CB").1.claims "CA").map ClaimRecord.status = some "paid") ∧
    ((dget (processClaimAsync (processClaimAsync (claimSubmit (claimSubmit exState extAllOk exSha "P1" exResp none true 1000 "CA").2.1
        extAllOk exSha "P1" exResp none true 1001 "CB").2.1 extAllOk 1100 "CA").1 extAllOk 1200 "CB").1.claims "CB").map ClaimRecord.status = some "paid") ∧
    (((processClaimAsync (claimSubmit (claimSubmit exState extAllOk exSha "P1" exResp none true 1000 "CA").2.1
        extAllOk exSha "P1" exResp none true 1001 "CB").2.1 extAllOk 1100 "CA").2 ++
      (processClaimAsync (processClaimAsync (claimSubmit (claimSubmit exState extAllOk exSha "P1" exResp none true 1000 "CA").2.1
        extAllOk exSha "P1" exResp none true 1001 "CB").2.1 extAllOk 1100 "CA").1 extAllOk 1200 "CB").2).countP isRefundCall = 2) := by
  decide

/-- C2 (amended): exactly-once settlement holds only for serialized
synchronous submissions: starting from a state satisfying the
exactly-once invariant (at most one paid claim for the policy, and none
while it is still active), any sequence of synchronous `/claim`
submissions, each run to completion before the next, leaves at most one
`paid` claim for that policy.  Asynchronous or overlapping submissions
are not covered: the background worker does not re-check the policy
status, so each of several in-flight claims can pay (see the
counterexample). -/
theorem C2_serialized_sync_at_most_one_paid (P : String) (st : ClaimState)
    (subs : List SyncSubmission) (hinv : exactlyOnceInv P st) :
    countPaidFor (runSyncSeq st subs) P ≤ 1 :=
  (runSyncSeq_preserves_inv P st subs hinv).1

/-- C2, witness: two serialized synchronous submissions against the
example policy leave at most one paid claim. -/
theorem C2_witness :
    countPaidFor (runSyncSeq exState [exSub, exSub]) "P1" ≤ 1 :=
  C2_serialized_sync_at_most_one_paid "P1" exState [exSub, exSub]
    ⟨by decide, fun _ _ _ => rfl⟩

/-- C3: the idempotent replay is broken for in-flight claims.  A first
asynchronous submission under key `K` leaves the claim `CE` in
`processing`; a second submission with the same key reaches the replay
branch, which reads `existing_claim["proof"]` with bracket access — the
key is absent on a processing record, so the route raises `KeyError`
(HTTP 500) instead of returning the claim's id and status verbatim (the
stores are unchanged, so no duplicate claim is created either). -/
theorem C3_replay_of_processing_claim_crashes :
    ((dget (claimSubmit exState extAllOk exSha "P1" exResp (some "K") true 1000 "CE").2.1.claims "CE").map
      ClaimRecord.status = some "processing") ∧
    ((claimSubmit (claimSubmit exState extAllOk exSha "P1" exResp (some "K") true 1000 "CE").2.1
        extAllOk exSha "P1" exResp (some "K") false 1001 "CF").1 = ClaimResponse.keyErrorCrash "proof") ∧
    ((claimSubmit (claimSubmit exState extAllOk exSha "P1" exResp (some "K") true 1000 "CE").2.1
        extAllOk exSha "P1" exResp (some "K") false 1001 "CF").2.1 =
      (claimSubmit exState extAllOk exSha "P1" exResp (some "K") true 1000 "CE").2.1) := by
  decide

/-- C4, counterexample.  The claim asserts that both execution modes
persist a `processing` record before any external call.  In the
synchronous run shown, the very first event is the proof-generation call
and no event of the trace ever saves a claim record in `processing`
status: the record is only written after attestation and payout, directly
as `paid`. -/
theorem C4_counterexample :
    ((claimSubmit exState extAllOk exSha "P1" exResp none false 1000 "CC").1 =
      ClaimResponse.paid "CC" "P1" "abc" [1, 503, 0, 10000] 100 "RTX") ∧
    ((claimSubmit exState extAllOk exSha "P1" exResp none false 1000 "CC").2.2.head? =
      some (Event.genProofCall 503)) ∧
    ((claimSubmit exState extAllOk exSha "P1" exResp none false 1000 "CC").2.2.all
      (fun e => !(savesClaimWithStatus "processing" e)) = true) := by
  decide

/-- C4 (amended): only the asynchronous mode checkpoints first: an
accepted asynchronous submission's entire trace is a single save of the
new record in `processing` status (no external call precedes anything);
in synchronous mode every durable claims save happens strictly after some
external call, and the record is written directly in its final status. -/
theorem C4_processing_checkpoint_async_only :
    (∀ (st : ClaimState) (ext : ExtBehavior) (sha : String → String)
       (pid : String) (resp : HttpResponse) (idem : Option String) (t : Int)
       (cid a b : String) (st2 : ClaimState) (tr : List Event),
      claimSubmit st ext sha pid resp idem true t cid =
        (ClaimResponse.accepted a b, st2, tr) →
      ∃ m, tr = [Event.saveClaims m] ∧
        (dget m cid).map ClaimRecord.status = some "processing") ∧
    (∀ (st : ClaimState) (ext : ExtBehavior) (sha : String → String)
       (pid : String) (resp : HttpResponse) (idem : Option String) (t : Int)
       (cid : String),
      allPrecededBy isSaveClaims isExternalCall
        (claimSubmit st ext sha pid resp idem false t cid).2.2 = true) :=
  ⟨fun st ext sha pid resp idem t cid a b st2 tr h =>
    claimSubmit_async_accepted st ext sha pid resp idem t cid a b st2 tr h,
   fun st ext sha pid resp idem t cid =>
    claimSubmit_sync_saves_after_ext st ext sha pid resp idem t cid⟩

/-- C4, witness: the amended theorem applied to an accepted asynchronous
submission of the example claim. -/
theorem C4_witness :
    ∃ m, (claimSubmit exState extAllOk exSha "P1" exResp none true 1000 "CPR").2.2 =
        [Event.saveClaims m] ∧
      (dget m "CPR").map ClaimRecord.status = some "processing" :=
  C4_processing_checkpoint_async_only.1 exState extAllOk exSha "P1" exResp none
    1000 "CPR" "CPR" "P1"
    (claimSubmit exState extAllOk exSha "P1" exResp none true 1000 "CPR").2.1
    (claimSubmit exState extAllOk exSha "P1" exResp none true 1000 "CPR").2.2
    (by decide)

/-- C5, counterexample.  The claim asserts that when attestation succeeds
and the payout raises, the claim record transitions to `failed` with the
attestation reference retained and visible via claim lookup.  In the
synchronous run shown, the response does carry the attestation reference
and the policy stays `active`, but no claim record is persisted at all:
looking up the claim id finds nothing. -/
theorem C5_counterexample :
    ((claimSubmit exState extRefundRaises exSha "P1" exResp none false 1000 "CD").1 =
      ClaimResponse.refundFailed "Refund failed" "ATT") ∧
    ((claimSubmit exState extRefundRaises exSha "P1" exResp none false 1000 "CD").2.1 = exState) ∧
    (dget (claimSubmit exState extRefundRaises exSha "P1" exResp none false 1000 "CD").2.1.claims "CD" = none) ∧
    ((dget (claimSubmit exState extRefundRaises exSha "P1" exResp none false 1000 "CD").2.1.policies "P1").map
      Policy.status = some "active") := by
  decide

/-- C5 (amended): when the synchronous path's refund raises after a
successful attestation, the HTTP 500 response carries the attestation
reference but no store is changed — no claim record is persisted (lookup
of the claim id finds exactly what was there before) and the policy
remains `active`; on the asynchronous path (which never attests) a
raising refund marks the existing claim record `failed`, with the
attestation field left as it was. -/
theorem C5_refund_failure_leaves_no_sync_record :
    (∀ (st : ClaimState) (ext : ExtBehavior) (sha : String → String)
       (pid : String) (resp : HttpResponse) (idem : Option String) (t : Int)
       (cid msg att : String),
      (claimSubmit st ext sha pid resp idem false t cid).1 =
        ClaimResponse.refundFailed msg att →
      (claimSubmit st ext sha pid resp idem false t cid).2.1 = st ∧
      ext.storeProof = some att ∧ ext.refund = none ∧
      (dget st.policies pid).map Policy.status = some "active" ∧
      dget (claimSubmit st ext sha pid resp idem false t cid).2.1.claims cid =
        dget st.claims cid) ∧
    (∀ (st : ClaimState) (ext : ExtBehavior) (t : Int) (cid : String)
       (c : ClaimRecord),
      ext.refund = none → dget st.claims cid = some c →
      ∃ r, dget (processClaimAsync st ext t cid).1.claims cid = some r ∧
        r.status = "failed" ∧ r.attestation_tx_hash = c.attestation_tx_hash) :=
  ⟨fun st ext sha pid resp idem t cid msg att h =>
    claimSubmit_refundFailed st ext sha pid resp idem t cid msg att h,
   fun st ext t cid c hrf hc =>
    processClaimAsync_refund_raises st ext t cid c hrf hc⟩

/-- C5, witness: the amended theorem applied to the example run in which
attestation succeeds and the refund raises. -/
theorem C5_witness :
    (claimSubmit exState extRefundRaises exSha "P1" exResp none false 1000 "CD").2.1 = exState ∧
    extRefundRaises.storeProof = some "ATT" ∧ extRefundRaises.refund = none ∧
    (dget exState.policies "P1").map Policy.status = some "active" ∧
    dget (claimSubmit exState extRefundRaises exSha "P1" exResp none false 1000 "CD").2.1.claims "CD" =
      dget exState.claims "CD" :=
  C5_refund_failure_leaves_no_sync_record.1 exState extRefundRaises exSha "P1"
    exResp none 1000 "CD" "Refund failed" "ATT" (by decide)

/-! ## Claims C9, C10: the payment-gated routes -/

/-- C9: `/insure` validates the coverage amount — present (and non-zero,
by Python truthiness), strictly positive, at most the configured maximum
— before any payment verification: on violation it returns HTTP 400 with
the state entirely unchanged, so no policy is created and the presented
authorization's nonce is not consumed (the verifier, nonce cache
included, is untouched). -/
theorem C9_coverage_validated_before_payment (cfg : ServerConfig)
    (st : WebState) (sig : SigOracle) (sha : String → String)
    (mu : Option String) (cov : Option ℚ) (ph pyh : Option String) (t : Int)
    (pid : String) (dbOk : Bool)
    (h : cov = none ∨ ∃ c, cov = some c ∧ (c ≤ 0 ∨ c > cfg.maxCoverage)) :
    ∃ msg, insure cfg st sig sha mu cov ph pyh t pid dbOk =
      (InsureResult.badRequest msg, st) := by
  rcases h with h | ⟨c, hc, h⟩
  · subst h
    unfold insure
    have hcond : mu.getD "" = "" ∨ (Option.getD (none : Option ℚ) 0) = 0 := Or.inr rfl
    rw [if_pos hcond]
    exact ⟨_, rfl⟩
  · subst hc
    unfold insure
    by_cases hmu : mu.getD "" = ""
    · rw [if_pos (Or.inl hmu)]
      exact ⟨_, rfl⟩
    · by_cases hz : c = 0
      · subst hz
        have hcond : mu.getD "" = "" ∨ (Option.getD (some (0 : ℚ)) 0) = 0 := Or.inr rfl
        rw [if_pos hcond]
        exact ⟨_, rfl⟩
      · rw [if_neg (by simp [hmu, hz])]
        dsimp only
        by_cases hle : c ≤ 0
        · rw [if_pos hle]
          exact ⟨_, rfl⟩
        · rcases h with h | hgt
          · exact absurd h hle
          · rw [if_neg hle, if_pos hgt]
            exact ⟨_, rfl⟩

/-- C9, witness: a request for coverage −1 is rejected with the state
unchanged even though a syntactically valid payment header is present. -/
theorem C9_witness :
    ∃ msg, insure exCfg exWebState sigAccept exSha (some "u") (some (-1))
      (some exHeader) none 1000000 "PN" true =
      (InsureResult.badRequest msg, exWebState) :=
  C9_coverage_validated_before_payment exCfg exWebState sigAccept exSha
    (some "u") (some (-1)) (some exHeader) none 1000000 "PN" true
    (Or.inr ⟨-1, rfl, Or.inl (by decide)⟩)

/-- C10: `/renew` mutates a policy only for its owner, compared
case-insensitively.  First conjunct: if the request passes all earlier
checks, the payment verifies, and the verified payer's lowercased address
differs from the policy owner's, the route answers 403 `forbidden` and
the policy store is unchanged (only the verifier's nonce state advances,
since verification succeeded).  Second conjunct: whenever the route
answers `renewed` — the only mutating outcome — the verified payer equals
the owner up to case. -/
theorem C10_renew_owner_check :
    (∀ (cfg : ServerConfig) (st : WebState) (sig : SigOracle)
       (pidOpt : Option String) (eh : Int) (ph pyh : Option String) (t : Int)
       (pol : Policy),
      ¬ pidOpt.getD "" = "" →
      ¬ (eh < 1 ∨ eh > 168) →
      dget st.policies (pidOpt.getD "") = some pol →
      pol.status = "active" →
      ¬ pol.expires_at < t →
      ¬ (ph.getD "" = "" ∨ pyh.getD "" = "") →
      (renewVerify cfg st sig ph pyh t pol eh).1.isValid = true →
      lowerStr ((renewVerify cfg st sig ph pyh t pol eh).1.payer) ≠
        lowerStr pol.agent_address →
      renew cfg st sig pidOpt eh ph pyh t =
        (RenewResult.forbidden,
         ⟨st.policies, (renewVerify cfg st sig ph pyh t pol eh).2⟩)) ∧
    (∀ (cfg : ServerConfig) (st : WebState) (sig : SigOracle)
       (pidOpt : Option String) (eh : Int) (ph pyh : Option String) (t : Int)
       (pol : Policy) (x : String) (y z : Int),
      dget st.policies (pidOpt.getD "") = some pol →
      (renew cfg st sig pidOpt eh ph pyh t).1 = RenewResult.renewed x y z →
      lowerStr ((renewVerify cfg st sig ph pyh t pol eh).1.payer) =
        lowerStr pol.agent_address) := by
  constructor
  · intro cfg st sig pidOpt eh ph pyh t pol hpid hrange hpol hactive hexp hhdr hvalid hmm
    unfold renew
    rw [if_neg hpid, if_neg hrange, hpol]
    dsimp only
    rw [if_neg (by simp [hactive]), if_neg hexp, if_neg hhdr,
        if_neg (by simp [hvalid]), if_pos hmm]
  · intro cfg st sig pidOpt eh ph pyh t pol x y z hpol h
    unfold renew at h
    repeat' split at h
    all_goals simp_all

/-- C10, witness: a valid payment from payer `P`, who is not the owner
`AG` of the example policy, is answered with 403 and the policy store is
unchanged. -/
theorem C10_witness :
    renew exCfg exWebState sigAccept (some "P1") 24 (some exRenewHeader)
      (some "P") 1000000 =
    (RenewResult.forbidden,
     ⟨exWebState.policies,
      (renewVerify exCfg exWebState sigAccept (some exRenewHeader) (some "P")
        1000000 exPolicy 24).2⟩) :=
  C10_renew_owner_check.1 exCfg exWebState sigAccept (some "P1") 24
    (some exRenewHeader) (some "P") 1000000 exPolicy (by decide) (by decide)
    (by decide) (by decide) (by decide) (by decide) (by decide) (by decide)

end X402
